import Mathlib

/-!
Shallow embedding of `spec_plots/specutils_stis.py` (version 1.30) and proofs
about it.  Python/numpy floating-point values are idealised as an inductive
type over the rationals with explicit non-finite values (`inf`, `neginf`,
`nan`); Python exceptions are modelled by an explicit error type and
`Except`-valued functions.
-/

set_option autoImplicit false

namespace SpecPlots

/-- Idealised Python/numpy scalar: a finite rational or one of the
non-finite IEEE values. -/
inductive PyVal where
  | fin (q : ℚ)
  | inf
  | neginf
  | nan
  deriving DecidableEq, Repr

/-- Test mirroring `numpy.isnan`. -/
def PyVal.isnan : PyVal → Bool
  | .nan => true
  | _ => false

/-- Test mirroring `numpy.isfinite`: `False` on `inf`, `-inf` and `nan`. -/
def PyVal.isfinite : PyVal → Bool
  | .fin _ => true
  | _ => false

/-- Comparison `a <= b` on non-`nan` extended values (`nan` compares false,
as in IEEE arithmetic; it is only applied to non-`nan` values here). -/
def pyle (a b : PyVal) : Bool :=
  match a, b with
  | .nan, _ => false
  | _, .nan => false
  | .neginf, _ => true
  | _, .inf => true
  | .inf, _ => false
  | _, .neginf => false
  | .fin x, .fin y => decide (x ≤ y)

/-- Binary minimum on extended values. -/
def pyMinV (a b : PyVal) : PyVal := if pyle b a then b else a

/-- Binary maximum on extended values. -/
def pyMaxV (a b : PyVal) : PyVal := if pyle a b then b else a

/-- Python exceptions that the embedded code can raise. -/
inductive PyError where
  | keyError (key : String)
  | specUtilsError (msg : String)
  | valueError (msg : String)
  | indexError (msg : String)
  deriving DecidableEq, Repr

/-- Test for the `specutils.SpecUtilsError` exception class. -/
def PyError.isSpecUtilsError : PyError → Bool
  | .specUtilsError _ => true
  | _ => false

/-- Embedding of `numpy.nanmin`: minimum ignoring `nan` entries; raises
`ValueError` on an empty array, returns `nan` when all entries are `nan`. -/
def nanminE (l : List PyVal) : Except PyError PyVal :=
  match l.filter (fun v => ¬ v.isnan) with
  | [] =>
      if l.isEmpty then
        .error (.valueError "zero-size array to reduction operation fmin which has no identity")
      else
        .ok .nan
  | x :: xs => .ok (xs.foldl pyMinV x)

/-- Embedding of `numpy.nanmax`: maximum ignoring `nan` entries; raises
`ValueError` on an empty array, returns `nan` when all entries are `nan`. -/
def nanmaxE (l : List PyVal) : Except PyError PyVal :=
  match l.filter (fun v => ¬ v.isnan) with
  | [] =>
      if l.isEmpty then
        .error (.valueError "zero-size array to reduction operation fmax which has no identity")
      else
        .ok .nan
  | x :: xs => .ok (xs.foldl pyMaxV x)

/-!
Data model: `STISOrderSpectrum`, `STISExposureSpectrum`, `STIS1DSpectrum`
(lines 22-121 of `specutils_stis.py`).  Numeric arrays are idealised as
lists of rationals.
-/

/-- Embedding of class `STISOrderSpectrum`: one spectral order with its
element count and four parallel numeric arrays. -/
structure STISOrderSpectrum where
  nelem : ℕ
  wavelengths : List ℚ
  fluxes : List ℚ
  fluxerrs : List ℚ
  dqs : List ℚ
  deriving DecidableEq, Repr

/-- Embedding of `STISOrderSpectrum.__init__` (lines 72-121).  Each argument
defaults to `None` (here `none`); a missing `nelem` becomes `0`, and each
missing array becomes `numpy.zeros(self.nelem)`, a zero-filled sequence of
length `nelem`.  A supplied array is stored as given (`numpy.asarray`),
without any length validation against `nelem`. -/
def STISOrderSpectrum.mk_init (nelem : Option ℕ)
    (wavelengths fluxes fluxerrs dqs : Option (List ℚ)) : STISOrderSpectrum :=
  let ne : ℕ := match nelem with
    | some n => n
    | none => 0
  { nelem := ne
    wavelengths := match wavelengths with
      | some w => w
      | none => List.replicate ne 0
    fluxes := match fluxes with
      | some f => f
      | none => List.replicate ne 0
    fluxerrs := match fluxerrs with
      | some f => f
      | none => List.replicate ne 0
    dqs := match dqs with
      | some d => d
      | none => List.replicate ne 0 }

/-- Embedding of class `STISExposureSpectrum`: one association, a list of
order spectra. -/
structure STISExposureSpectrum where
  orders : List STISOrderSpectrum
  deriving DecidableEq, Repr

/-- Embedding of `STISExposureSpectrum.__init__` (lines 51-64): stores the
given list when it is non-empty, otherwise raises `ValueError`. -/
def STISExposureSpectrum.mk_init (order_spectra : List STISOrderSpectrum) :
    Except PyError STISExposureSpectrum :=
  if order_spectra.length > 0 then
    .ok { orders := order_spectra }
  else
    .error (.valueError "Must provide a list of at least one STISOrderSpectrum object, input list is empty.")

/-- Embedding of class `STIS1DSpectrum`: the root spectrum object. -/
structure STIS1DSpectrum where
  orig_file : Option String
  associations : List STISExposureSpectrum
  deriving DecidableEq, Repr

/-- Embedding of `STIS1DSpectrum.__init__` (lines 28-43): records the
original file name and the association list.  Note that the constructor
performs no validation whatsoever: it never raises, even though the class
docstring declares `:raises: ValueError`. -/
def STIS1DSpectrum.mk_init (association_spectra : List STISExposureSpectrum)
    (orig_file : Option String) : STIS1DSpectrum :=
  { orig_file := orig_file, associations := association_spectra }

/-!
Association selector (`get_association_indices`, lines 125-143).
-/

/-- Python 2 `round`: round half away from zero, exact on rationals.  The
source computes `int(round(float(n_associations)/2.))`; for the integer
inputs arising here the float arithmetic is exact, so the rational model is
faithful. -/
def pyRound (q : ℚ) : ℤ :=
  if 0 ≤ q then ⌊q + 1/2⌋ else -⌊-q + 1/2⌋

/-- Embedding of `get_association_indices` (lines 125-143): all indices when
there are at most three associations, otherwise the first, the rounded
middle, and the last index. -/
def get_association_indices {α : Type} (associations : List α) : List ℕ :=
  let n_associations := associations.length
  if n_associations ≤ 3 then
    List.range n_associations
  else
    let midindex := (pyRound ((n_associations : ℚ) / 2)).toNat
    [0, midindex, n_associations - 1]

/-!
Renderer (`plotspec`, lines 146-363).  The per-association subplot work of
the main loop (lines 249-350) is embedded as a pure function from the
association's inputs to a `Panel` value describing every styling action the
code performs on that subplot, or to the Python exception it raises.  The
engine-computed natural axis ranges (`get_xlim`/`get_ylim`, lines 277-278)
are inputs to the function, since they come from the plotting backend.
-/

/-- Per-association stitched-spectrum mapping produced by
`specutils.stitch_components`; a `none` field models an absent key. -/
structure StitchedDict where
  wls : Option (List PyVal)
  fls : Option (List PyVal)
  flerrs : Option (List PyVal)
  dqs : Option (List PyVal)
  title : Option String
  deriving DecidableEq, Repr

/-- Avoid region with minimum and maximum wavelength bounds. -/
structure AvoidRegion where
  minwl : PyVal
  maxwl : PyVal
  deriving DecidableEq, Repr

/-- Per-association plot-metrics mapping produced by
`specutils.calc_plot_metrics`; a `none` field models an absent key. -/
structure MetricsDict where
  optimal_xaxis_range : Option (List PyVal)
  y_axis_range : Option (List PyVal)
  median_flux : Option PyVal
  median_fluxerr : Option PyVal
  fluxerr_95th : Option PyVal
  avoid_regions : Option (List AvoidRegion)
  deriving DecidableEq, Repr

/-- A text annotation placed on a subplot
(`this_plotarea.text(...)`, line 350). -/
structure PanelText where
  x : ℚ
  y : ℚ
  text : String
  ha : String
  va : String
  size : String
  deriving DecidableEq, Repr

/-- Observable state of one rendered subplot: every matplotlib styling call
the loop body performs is recorded in a field. -/
structure Panel where
  title_right : Option String := none
  title_center : Option String := none
  curve : Option (List PyVal × List PyVal) := none
  grid_on : Bool := false
  debug_overlay : Bool := false
  trimmed_shading : List (PyVal × PyVal) := []
  avoid_shading : List (PyVal × PyVal) := []
  xlim : Option (PyVal × PyVal) := none
  ylim : Option (List PyVal) := none
  bgcolor : Option String := none
  yticklabels : Option (List String) := none
  xticks : Option (List PyVal) := none
  xtick_rotation : Option ℚ := none
  x_formatter : Option String := none
  y_formatter : Option String := none
  xlabel : Option String := none
  ylabel : Option String := none
  texts : List PanelText := []
  deriving DecidableEq, Repr

/-- Key lookup in the stitched-spectrum mapping: the `try`/`except KeyError`
at lines 253-260 converts a missing key into a `SpecUtilsError` whose
message names the key (`str` of a `KeyError` is the quoted key). -/
def getKeyStitched {α : Type} (v : Option α) (key : String) : Except PyError α :=
  match v with
  | some x => .ok x
  | none => .error (.specUtilsError
      ("The provided stitched spectrum does not have the expected format, missing key '" ++ key ++ "'."))

/-- Key lookup in the plot-metrics mapping: accesses such as
`plot_metrics[i]["optimal_xaxis_range"]` (line 268) are bare dictionary
subscripts, so a missing key raises a plain `KeyError`. -/
def getKeyMetrics {α : Type} (v : Option α) (key : String) : Except PyError α :=
  match v with
  | some x => .ok x
  | none => .error (.keyError key)

/-- List subscript as in `optimal_xaxis_range[0]` (lines 285-286). -/
def listGetE (l : List PyVal) (i : ℕ) : Except PyError PyVal :=
  match l.get? i with
  | some v => .ok v
  | none => .error (.indexError "list index out of range")

/-- X-axis label string (line 306), TeX markup included. -/
def xlabel_str : String := "Wavelength $(\\AA)$"

/-- Y-axis label string (line 307), TeX markup included. -/
def ylabel_str : String := "Flux $\\mathrm\x7b(erg/s/cm^2\\!/\\AA)\x7d$"

/-- Embedding of one iteration of the association loop of `plotspec`
(lines 249-350).  `association_index` is `association_indices[i]`;
`pyplot_xrange` and `pyplot_yrange` are the backend-computed natural axis
ranges captured at lines 277-278 (the latter is captured but never used by
the source). -/
def plotspec_render_association (sd : StitchedDict) (md : MetricsDict)
    (is_bigplot debug full_ylabels : Bool) (association_index n_associations : ℕ)
    (pyplot_xrange : PyVal × PyVal) (_pyplot_yrange : PyVal × PyVal) :
    Except PyError Panel := do
  let all_wls ← getKeyStitched sd.wls "wls"
  let all_fls ← getKeyStitched sd.fls "fls"
  let _all_flerrs ← getKeyStitched sd.flerrs "flerrs"
  let _all_dqs ← getKeyStitched sd.dqs "dqs"
  let title_addendum ← getKeyStitched sd.title "title"
  let p0 : Panel := {}
  let p1 := if is_bigplot then { p0 with title_right := some title_addendum } else p0
  let assoc_label := "Association " ++ toString (association_index + 1) ++ "/" ++ toString n_associations
  let p2 := if n_associations > 1 ∧ is_bigplot then
      { p1 with title_center := some assoc_label }
    else p1
  let optimal_xaxis_range ← getKeyMetrics md.optimal_xaxis_range "optimal_xaxis_range"
  if optimal_xaxis_range.all PyVal.isfinite then do
    let p3 : Panel := { p2 with curve := some (all_wls, all_fls), grid_on := true }
    let p4 ← if debug then do
        let _median_flux ← getKeyMetrics md.median_flux "median_flux"
        let _median_fluxerr ← getKeyMetrics md.median_fluxerr "median_fluxerr"
        let _fluxerr_95th ← getKeyMetrics md.fluxerr_95th "fluxerr_95th"
        let mn ← nanminE all_wls
        let r0 ← listGetE optimal_xaxis_range 0
        let r1 ← listGetE optimal_xaxis_range 1
        let mx ← nanmaxE all_wls
        let avoid_regions ← getKeyMetrics md.avoid_regions "avoid_regions"
        pure { p3 with debug_overlay := true,
                       trimmed_shading := [(mn, r0), (r1, mx)],
                       avoid_shading := avoid_regions.map (fun ar => (ar.minwl, ar.maxwl)) }
      else pure p3
    let p5 : Panel := { p4 with xlim := some pyplot_xrange }
    let p6 ← if ¬ is_bigplot then do
        let mn ← nanminE all_wls
        let mx ← nanmaxE all_wls
        pure { p5 with xticks := some [mn, mx], xtick_rotation := some 25,
                       x_formatter := some "%6.1f" }
      else
        pure { p5 with xlabel := some xlabel_str, ylabel := some ylabel_str,
                       y_formatter := if full_ylabels then some "%3.2E" else p5.y_formatter }
    if ¬ debug then do
      let y_axis_range ← getKeyMetrics md.y_axis_range "y_axis_range"
      pure { p6 with ylim := some y_axis_range }
    else
      pure p6
  else do
    let mn ← nanminE all_wls
    let mx ← nanmaxE all_wls
    let p3 : Panel := { p2 with xlim := some (mn, mx), bgcolor := some "lightgrey",
                                yticklabels := some [] }
    let styled ← if ¬ is_bigplot then do
        let mn2 ← nanminE all_wls
        let mx2 ← nanmaxE all_wls
        pure (({ p3 with xticks := some [mn2, mx2], xtick_rotation := some 25,
                          x_formatter := some "%6.1f" } : Panel),
              "small", "Fluxes are \n all 0.")
      else
        pure (({ p3 with xlabel := some xlabel_str, ylabel := some ylabel_str,
                          y_formatter := if full_ylabels then some "%3.2E" else p3.y_formatter } : Panel),
              "x-large", "Fluxes are all 0.")
    pure { styled.1 with
           texts := styled.1.texts ++
             [{ x := 1/2, y := 1/2, text := styled.2.2, ha := "center", va := "center",
                size := styled.2.1 }] }

/-!
Output-file name derivation (lines 353-360), over lists of characters.
`os.path.split`, `os.path.splitext` (posix) and the `'_{0:04d}'` format are
embedded from their library semantics.
-/

/-- Strip trailing `'/'` characters, as `head.rstrip('/')` does inside
`posixpath.split`. -/
def rstrip_slashes (l : List Char) : List Char :=
  (l.reverse.dropWhile (fun c => c = '/')).reverse

/-- Embedding of `os.path.split` (posix): split at the last `'/'`; the head
keeps no trailing slashes unless it consists only of slashes. -/
def ospath_split (p : List Char) : List Char × List Char :=
  let tail := (p.reverse.takeWhile (fun c => c ≠ '/')).reverse
  let head := p.take (p.length - tail.length)
  if head ≠ [] ∧ ¬ (head.all (fun c => c = '/')) then (rstrip_slashes head, tail)
  else (head, tail)

/-- Embedding of `os.path.splitext` (posix): split at the last `'.'` that
comes after the last `'/'`, provided some character strictly between them is
not a dot (so purely leading dots do not start an extension).
`sepIndexSucc` and `dotIndexSucc` are `rfind('/') + 1` and
`rfind('.') + 1`. -/
def ospath_splitext (p : List Char) : List Char × List Char :=
  let sepIndexSucc := p.length - (p.reverse.takeWhile (fun c => c ≠ '/')).length
  let dotIndexSucc := p.length - (p.reverse.takeWhile (fun c => c ≠ '.')).length
  if sepIndexSucc < dotIndexSucc ∧
      ((p.drop sepIndexSucc).take (dotIndexSucc - 1 - sepIndexSucc)).any (fun c => c ≠ '.') then
    (p.take (dotIndexSucc - 1), p.drop (dotIndexSucc - 1))
  else
    (p, [])

/-- Decimal rendering of `output_size` zero-padded to a minimum width of 4,
as the Python format `'\x7b0:04d\x7d'` produces for natural numbers. -/
def format04d (n : ℕ) : List Char :=
  let s := Nat.toDigits 10 n
  if s.length < 4 then List.replicate (4 - s.length) '0' ++ s else s

/-- Embedding of the filename derivation at lines 355-357:
`output_splits[0] + os.path.sep + file_splits[0] + '_' + <04d size> +
file_splits[1]` with `os.path.sep = '/'`. -/
def plotspec_revised_output_file (output_file : List Char) (output_size : ℕ) : List Char :=
  let output_splits := ospath_split output_file
  let file_splits := ospath_splitext output_splits.2
  output_splits.1 ++ '/' :: (file_splits.1 ++ '_' :: (format04d output_size ++ file_splits.2))

/-- String-typed wrapper of the filename derivation. -/
def plotspec_revised_output_file_str (output_file : String) (output_size : ℕ) : String :=
  ⟨plotspec_revised_output_file output_file.data output_size⟩

/-!
Output-directory preparation (lines 214-224).
-/

/-- Outcome of the output-directory preparation step. -/
inductive DirOutcome where
  | proceeded
  | exited (status : ℕ) (message : String)
  | raised (errno : ℤ) (strerror : String)
  deriving DecidableEq, Repr

/-- Python `repr` of an ordinary string: quotes around it (escapes are not
modelled, the strings used here contain none). -/
def pyrepr_str (s : String) : String := "'" ++ s ++ "'"

/-- Embedding of lines 214-224: when output goes to a file and the output
directory is missing, attempt `os.mkdir`; `mkdir_error` is `some (errno,
strerror)` when that call raises `OSError`.  A permission error (errno 13)
writes the diagnostic to stderr and exits with status 1; any other `OSError`
is re-raised unchanged. -/
def plotspec_ensure_output_dir (output_type : String) (output_dir_exists : Bool)
    (mkdir_error : Option (ℤ × String)) : DirOutcome :=
  if output_type ≠ "screen" then
    if ¬ output_dir_exists then
      match mkdir_error with
      | none => .proceeded
      | some (errno, strerror) =>
          if errno = 13 then
            .exited 1 ("*** MAKE_HST_SPEC_PREVIEWS ERROR: Output directory could not be created, "
              ++ pyrepr_str strerror ++ "\n")
          else
            .raised errno strerror
    else .proceeded
  else .proceeded

/-!
Reader (`readspec`, lines 367-395).  A FITS file is modelled as its list of
tabular extensions after the primary HDU (`hdulist[1:]`); each extension is
its list of table rows, each row carrying the fields the reader touches.
-/

/-- One row of a tabular extension; `sporder` is read only to count rows. -/
structure STISFitsRow where
  sporder : ℤ
  nelem : ℕ
  wavelength : List ℚ
  flux : List ℚ
  error : List ℚ
  dq : List ℚ
  deriving DecidableEq, Repr

/-- One tabular extension: its table rows. -/
structure STISFitsExtension where
  rows : List STISFitsRow
  deriving DecidableEq, Repr

/-- A FITS file as seen by `readspec`: the extensions after the primary. -/
structure STISFitsFile where
  extensions : List STISFitsExtension
  deriving DecidableEq, Repr

/-- The order spectrum built from one table row (the comprehension at
line 389). -/
def readOrderFromRow (row : STISFitsRow) : STISOrderSpectrum :=
  STISOrderSpectrum.mk_init (some row.nelem) (some row.wavelength) (some row.flux)
    (some row.error) (some row.dq)

/-- The extension loop of `readspec` (lines 382-393): for each extension,
build its order spectra row by row, wrap them in a `STISExposureSpectrum`
(which fails on an empty table) and append. -/
def readspec_assocs : List STISFitsExtension → Except PyError (List STISExposureSpectrum)
  | [] => .ok []
  | exten :: rest => do
      let this_exposure_spectrum ← STISExposureSpectrum.mk_init (exten.rows.map readOrderFromRow)
      let others ← readspec_assocs rest
      pure (this_exposure_spectrum :: others)

/-- Embedding of `readspec` (lines 367-395). -/
def readspec (input_file : String) (hdulist : STISFitsFile) : Except PyError STIS1DSpectrum := do
  let all_association_spectra ← readspec_assocs hdulist.extensions
  pure (STIS1DSpectrum.mk_init all_association_spectra (some input_file))

/-!
Helper lemmas.
-/

/-- Bind of a successful `Except` computation reduces to the continuation. -/
theorem except_bind_ok {α β : Type} (a : α) (f : α → Except PyError β) :
    (do let x ← Except.ok a; f x) = f a := rfl

/-- Bind of a pure `Except` computation reduces to the continuation. -/
theorem except_bind_pure {α β : Type} (a : α) (f : α → Except PyError β) :
    (do let x ← (pure a : Except PyError α); f x) = f a := rfl

/-- Python 2 rounding of `n / 2` for a natural `n`, as an integer. -/
theorem pyRound_natCast_div_two (n : ℕ) : pyRound ((n : ℚ) / 2) = ((n : ℤ) + 1) / 2 := by
  unfold pyRound
  rw [if_pos (by positivity)]
  have h : (n : ℚ) / 2 + 1 / 2 = (((n : ℤ) + 1 : ℤ) : ℚ) / ((2 : ℕ) : ℚ) := by push_cast; ring
  rw [h, Rat.floor_intCast_div_natCast]
  norm_num

/-- Python 2 rounding of `n / 2` as a natural number: round half up. -/
theorem pyRound_toNat_div_two (n : ℕ) : (pyRound ((n : ℚ) / 2)).toNat = (n + 1) / 2 := by
  rw [pyRound_natCast_div_two]; omega

/-- Binary minimum on embedded finite values is the rational minimum. -/
theorem pyMinV_fin (a b : ℚ) : pyMinV (PyVal.fin a) (PyVal.fin b) = PyVal.fin (min a b) := by
  simp only [pyMinV, pyle]
  by_cases h : b ≤ a
  · simp [h, min_eq_right h]
  · have h' : a ≤ b := le_of_not_le h
    simp [h, min_eq_left h']

/-- Binary maximum on embedded finite values is the rational maximum. -/
theorem pyMaxV_fin (a b : ℚ) : pyMaxV (PyVal.fin a) (PyVal.fin b) = PyVal.fin (max a b) := by
  simp only [pyMaxV, pyle]
  by_cases h : a ≤ b
  · simp [h, max_eq_right h]
  · have h' : b ≤ a := le_of_not_le h
    simp [h, max_eq_left h']

/-- Folding `pyMinV` over embedded finite values folds `min` over the
rationals. -/
theorem foldl_pyMinV_map_fin (q : ℚ) (qs : List ℚ) :
    (qs.map PyVal.fin).foldl pyMinV (PyVal.fin q) = PyVal.fin (qs.foldl min q) := by
  induction qs generalizing q with
  | nil => rfl
  | cons a l ih => simp [List.foldl_cons, pyMinV_fin, ih]

/-- Folding `pyMaxV` over embedded finite values folds `max` over the
rationals. -/
theorem foldl_pyMaxV_map_fin (q : ℚ) (qs : List ℚ) :
    (qs.map PyVal.fin).foldl pyMaxV (PyVal.fin q) = PyVal.fin (qs.foldl max q) := by
  induction qs generalizing q with
  | nil => rfl
  | cons a l ih => simp [List.foldl_cons, pyMaxV_fin, ih]

/-- The nan-filter keeps every embedded finite value. -/
theorem filter_not_isnan_map_fin (qs : List ℚ) :
    (qs.map PyVal.fin).filter (fun v => ¬ v.isnan) = qs.map PyVal.fin := by
  apply List.filter_eq_self.mpr
  intro v hv
  obtain ⟨x, _, rfl⟩ := List.mem_map.mp hv
  rfl

/-- `numpy.nanmin` on a non-empty list of finite values. -/
theorem nanminE_map_fin (q : ℚ) (qs : List ℚ) :
    nanminE ((q :: qs).map PyVal.fin) = .ok (.fin (qs.foldl min q)) := by
  unfold nanminE
  rw [filter_not_isnan_map_fin]
  simp [foldl_pyMinV_map_fin]

/-- `numpy.nanmax` on a non-empty list of finite values. -/
theorem nanmaxE_map_fin (q : ℚ) (qs : List ℚ) :
    nanmaxE ((q :: qs).map PyVal.fin) = .ok (.fin (qs.foldl max q)) := by
  unfold nanmaxE
  rw [filter_not_isnan_map_fin]
  simp [foldl_pyMaxV_map_fin]

/-- The left fold of `min` is a member of the list it folds over. -/
theorem foldl_min_mem (q : ℚ) (qs : List ℚ) : qs.foldl min q ∈ q :: qs := by
  induction qs generalizing q with
  | nil => simp
  | cons a l ih =>
    simp only [List.foldl_cons]
    rcases List.mem_cons.mp (ih (min q a)) with h | h
    · rcases min_choice q a with hq | ha
      · rw [h, hq]; simp
      · rw [h, ha]; simp
    · simp [List.mem_cons, Or.inr (Or.inr h)]

/-- The left fold of `min` is a lower bound of all folded elements. -/
theorem foldl_min_le (q : ℚ) (qs : List ℚ) : ∀ a ∈ q :: qs, qs.foldl min q ≤ a := by
  induction qs generalizing q with
  | nil => intro a ha; simp at ha; simp [ha]
  | cons b l ih =>
    intro a ha
    simp only [List.foldl_cons]
    rcases List.mem_cons.mp ha with rfl | ha'
    · exact le_trans (ih _ _ (List.mem_cons_self _ _)) (min_le_left _ _)
    · rcases List.mem_cons.mp ha' with rfl | ha''
      · exact le_trans (ih _ _ (List.mem_cons_self _ _)) (min_le_right _ _)
      · exact ih _ a (List.mem_cons_of_mem _ ha'')

/-- The left fold of `max` is a member of the list it folds over. -/
theorem foldl_max_mem (q : ℚ) (qs : List ℚ) : qs.foldl max q ∈ q :: qs := by
  induction qs generalizing q with
  | nil => simp
  | cons a l ih =>
    simp only [List.foldl_cons]
    rcases List.mem_cons.mp (ih (max q a)) with h | h
    · rcases max_choice q a with hq | ha
      · rw [h, hq]; simp
      · rw [h, ha]; simp
    · simp [List.mem_cons, Or.inr (Or.inr h)]

/-- The left fold of `max` is an upper bound of all folded elements. -/
theorem le_foldl_max (q : ℚ) (qs : List ℚ) : ∀ a ∈ q :: qs, a ≤ qs.foldl max q := by
  induction qs generalizing q with
  | nil => intro a ha; simp at ha; simp [ha]
  | cons b l ih =>
    intro a ha
    simp only [List.foldl_cons]
    rcases List.mem_cons.mp ha with rfl | ha'
    · exact le_trans (le_max_left _ _) (ih _ _ (List.mem_cons_self _ _))
    · rcases List.mem_cons.mp ha' with rfl | ha''
      · exact le_trans (le_max_right _ _) (ih _ _ (List.mem_cons_self _ _))
      · exact ih _ a (List.mem_cons_of_mem _ ha'')

/-!
Claim theorems.
-/

/-- C1: for every association list of length N, `get_association_indices`
returns all indices `0..N-1` in order when `N ≤ 3`, and exactly the three
indices `[0, round(N/2), N-1]` (rounding half up, as Python 2 `round` does
for positive halves) when `N > 3`; in particular `N = 5` yields `[0, 3, 4]`
and `N = 7` yields `[0, 4, 6]`. -/
theorem get_association_indices_spec {α : Type} (associations : List α) :
    (associations.length ≤ 3 →
      get_association_indices associations = List.range associations.length)
    ∧ (associations.length > 3 →
      get_association_indices associations =
        [0, (associations.length + 1) / 2, associations.length - 1])
    ∧ (associations.length = 5 → get_association_indices associations = [0, 3, 4])
    ∧ (associations.length = 7 → get_association_indices associations = [0, 4, 6]) := by
  refine ⟨?_, ?_, ?_, ?_⟩ <;> intro h
  · simp only [get_association_indices]
    rw [if_pos h]
  · simp only [get_association_indices]
    rw [if_neg (by omega), pyRound_toNat_div_two]
  · simp only [get_association_indices, h]
    rw [if_neg (by omega), pyRound_toNat_div_two]
  · simp only [get_association_indices, h]
    rw [if_neg (by omega), pyRound_toNat_div_two]

/-- Witness for C1: concrete association lists of lengths 5, 7 and 2. -/
theorem get_association_indices_spec_witness :
    get_association_indices (List.range 5) = [0, 3, 4]
    ∧ get_association_indices (List.range 7) = [0, 4, 6]
    ∧ get_association_indices (List.range 2) = List.range 2 :=
  ⟨(get_association_indices_spec (List.range 5)).2.2.1 (by decide),
   (get_association_indices_spec (List.range 7)).2.2.2 (by decide),
   (get_association_indices_spec (List.range 2)).1 (by decide)⟩

/-- C3 counterexample: `STISOrderSpectrum.__init__` performs no length
validation, so an order constructed with `nelem = 5` and a supplied
3-element wavelength array succeeds with a wavelength sequence whose length
differs from the declared element count. -/
theorem STISOrderSpectrum_length_counterexample :
    (STISOrderSpectrum.mk_init (some 5) (some [1, 2, 3]) none none none).nelem = 5
    ∧ (STISOrderSpectrum.mk_init (some 5) (some [1, 2, 3]) none none none).wavelengths.length = 3 :=
  ⟨rfl, rfl⟩

/-- C3 (amended): supplied arrays are stored as given, with no validation
against `nelem`; when no arrays are supplied, all four sequences are
zero-filled of length `nelem` (or length 0 when `nelem` is unspecified); in
particular `nelem = 5` with no arrays produces four zero-filled length-5
sequences. -/
theorem STISOrderSpectrum_init_spec (ne : ℕ) (w f fe d : List ℚ) :
    ((STISOrderSpectrum.mk_init (some ne) none none none none) =
      { nelem := ne, wavelengths := List.replicate ne 0, fluxes := List.replicate ne 0,
        fluxerrs := List.replicate ne 0, dqs := List.replicate ne 0 })
    ∧ ((STISOrderSpectrum.mk_init none none none none none) =
      { nelem := 0, wavelengths := [], fluxes := [], fluxerrs := [], dqs := [] })
    ∧ ((STISOrderSpectrum.mk_init (some ne) (some w) (some f) (some fe) (some d)) =
      { nelem := ne, wavelengths := w, fluxes := f, fluxerrs := fe, dqs := d })
    ∧ ((STISOrderSpectrum.mk_init (some 5) none none none none).wavelengths = [0, 0, 0, 0, 0]
        ∧ (STISOrderSpectrum.mk_init (some 5) none none none none).fluxes = [0, 0, 0, 0, 0]
        ∧ (STISOrderSpectrum.mk_init (some 5) none none none none).fluxerrs = [0, 0, 0, 0, 0]
        ∧ (STISOrderSpectrum.mk_init (some 5) none none none none).dqs = [0, 0, 0, 0, 0]) :=
  ⟨rfl, rfl, rfl, rfl, rfl, rfl, rfl⟩

/-- C4 (code-bug evidence): `STIS1DSpectrum.__init__` performs no
validation, so construction from an empty association list succeeds and
stores an empty sequence, although the class docstring declares
`:raises: ValueError` and the spec requires at least one association. -/
theorem STIS1DSpectrum_empty_assoc_accepted :
    (STIS1DSpectrum.mk_init [] (some "some_file_x1d.fits")).associations = []
    ∧ (STIS1DSpectrum.mk_init [] (some "some_file_x1d.fits")).associations.length = 0
    ∧ (STIS1DSpectrum.mk_init [] (some "some_file_x1d.fits")).orig_file = some "some_file_x1d.fits" :=
  ⟨rfl, rfl, rfl⟩

/-- C6: constructing a `STISExposureSpectrum` from an empty order list
always fails with a `ValueError` (and, the embedding being pure, produces no
object at all), while constructing from a non-empty list always succeeds and
stores exactly the given list, preserving order. -/
theorem STISExposureSpectrum_init_spec (order_spectra : List STISOrderSpectrum) :
    (order_spectra = [] →
      STISExposureSpectrum.mk_init order_spectra =
        .error (.valueError "Must provide a list of at least one STISOrderSpectrum object, input list is empty."))
    ∧ (order_spectra ≠ [] →
      STISExposureSpectrum.mk_init order_spectra = .ok { orders := order_spectra }) := by
  constructor <;> intro h
  · subst h; rfl
  · unfold STISExposureSpectrum.mk_init
    rw [if_pos (by simpa [List.length_pos] using h)]

/-- Witness for C6: the empty list fails, a one-element list succeeds. -/
theorem STISExposureSpectrum_init_spec_witness :
    STISExposureSpectrum.mk_init [] =
      .error (.valueError "Must provide a list of at least one STISOrderSpectrum object, input list is empty.")
    ∧ STISExposureSpectrum.mk_init [STISOrderSpectrum.mk_init (some 1) none none none none] =
      .ok { orders := [STISOrderSpectrum.mk_init (some 1) none none none none] } :=
  ⟨(STISExposureSpectrum_init_spec []).1 rfl,
   (STISExposureSpectrum_init_spec _).2 (by simp)⟩

/-- C8: in file-output mode with a missing output directory, a directory
creation failure with errno 13 terminates the run with exit status 1 after a
message containing `MAKE_HST_SPEC_PREVIEWS ERROR`; a failure with any other
errno re-raises the original error unchanged. -/
theorem plotspec_ensure_output_dir_spec (output_type strerror : String) (errno : ℤ)
    (hscreen : output_type ≠ "screen") :
    (errno = 13 →
      ∃ msg, plotspec_ensure_output_dir output_type false (some (errno, strerror)) = .exited 1 msg
        ∧ ∃ pre post, msg = pre ++ "MAKE_HST_SPEC_PREVIEWS ERROR" ++ post)
    ∧ (errno ≠ 13 →
      plotspec_ensure_output_dir output_type false (some (errno, strerror)) =
        .raised errno strerror) := by
  constructor <;> intro h
  · subst h
    refine ⟨"*** MAKE_HST_SPEC_PREVIEWS ERROR: Output directory could not be created, "
        ++ pyrepr_str strerror ++ "\n", ?_, "*** ",
      ": Output directory could not be created, " ++ pyrepr_str strerror ++ "\n", ?_⟩
    · unfold plotspec_ensure_output_dir
      rw [if_pos hscreen]
      simp
    · rw [show ("*** " ++ "MAKE_HST_SPEC_PREVIEWS ERROR" : String) =
          "*** MAKE_HST_SPEC_PREVIEWS ERROR" from rfl]
      conv_rhs => rw [← String.append_assoc, ← String.append_assoc]
      rfl
  · unfold plotspec_ensure_output_dir
    rw [if_pos hscreen]
    simp [h]

/-- Witness for C8: a permission-denied failure and an unrelated failure for
a PNG output request. -/
theorem plotspec_ensure_output_dir_spec_witness :
    (∃ msg, plotspec_ensure_output_dir "png" false (some (13, "Permission denied")) = .exited 1 msg
      ∧ ∃ pre post, msg = pre ++ "MAKE_HST_SPEC_PREVIEWS ERROR" ++ post)
    ∧ plotspec_ensure_output_dir "png" false (some (2, "No such file or directory")) =
        .raised 2 "No such file or directory" :=
  ⟨(plotspec_ensure_output_dir_spec "png" "Permission denied" 13 (by decide)).1 rfl,
   (plotspec_ensure_output_dir_spec "png" "No such file or directory" 2 (by decide)).2 (by decide)⟩

/-- The extension loop of `readspec` succeeds and maps each non-empty
extension to its exposure spectrum. -/
theorem readspec_assocs_ok (exts : List STISFitsExtension)
    (h : ∀ e ∈ exts, e.rows ≠ []) :
    readspec_assocs exts =
      .ok (exts.map (fun e => { orders := e.rows.map readOrderFromRow })) := by
  induction exts with
  | nil => rfl
  | cons e rest ih =>
    have he : (e.rows.map readOrderFromRow).length > 0 := by
      simp [List.length_pos, h e (by simp)]
    have h1 : STISExposureSpectrum.mk_init (e.rows.map readOrderFromRow) =
        .ok { orders := e.rows.map readOrderFromRow } := by
      unfold STISExposureSpectrum.mk_init
      rw [if_pos he]
    have h2 := ih (fun x hx => h x (by simp [hx]))
    simp [readspec_assocs, h1, h2, except_bind_ok]

/-- C9: for every input file whose tabular extensions each contain at least
one row, `readspec` succeeds and returns one association per extension in
extension order, each holding one order per table row in row order, with
each order's four sequences taken verbatim from that row's arrays and its
element count from the row's `nelem` field (so the sequences length-match
`nelem` whenever the file's arrays do). -/
theorem readspec_spec (input_file : String) (hdulist : STISFitsFile)
    (h : ∀ e ∈ hdulist.extensions, e.rows ≠ []) :
    readspec input_file hdulist =
      .ok (STIS1DSpectrum.mk_init
        (hdulist.extensions.map (fun e => { orders := e.rows.map readOrderFromRow }))
        (some input_file))
    ∧ (∀ row : STISFitsRow,
        (readOrderFromRow row).wavelengths = row.wavelength
        ∧ (readOrderFromRow row).fluxes = row.flux
        ∧ (readOrderFromRow row).fluxerrs = row.error
        ∧ (readOrderFromRow row).dqs = row.dq
        ∧ (readOrderFromRow row).nelem = row.nelem) := by
  refine ⟨?_, fun row => ⟨rfl, rfl, rfl, rfl, rfl⟩⟩
  unfold readspec
  rw [readspec_assocs_ok hdulist.extensions h]
  rfl

/-- Demonstration input file for C9: two tabular extensions with one table
row each. -/
def demoFitsFile : STISFitsFile :=
  { extensions :=
      [ { rows := [ { sporder := 1, nelem := 3,
                      wavelength := [1000, 1001, 1002], flux := [5, 6, 7],
                      error := [1, 1, 1], dq := [0, 0, 0] } ] },
        { rows := [ { sporder := 2, nelem := 2,
                      wavelength := [2000, 2001], flux := [8, 9],
                      error := [2, 2], dq := [0, 16] } ] } ] }

/-- Witness for C9: reading the two-extension, one-row-each file yields two
associations of one order each, with sequences length-matching `nelem`. -/
theorem readspec_spec_witness :
    readspec "obs_x1d.fits" demoFitsFile =
      .ok (STIS1DSpectrum.mk_init
        (demoFitsFile.extensions.map (fun e => { orders := e.rows.map readOrderFromRow }))
        (some "obs_x1d.fits"))
    ∧ (demoFitsFile.extensions.map
        (fun e => { orders := e.rows.map readOrderFromRow } : STISFitsExtension → STISExposureSpectrum)).length = 2
    ∧ (∀ a ∈ demoFitsFile.extensions.map
          (fun e => { orders := e.rows.map readOrderFromRow } : STISFitsExtension → STISExposureSpectrum),
        a.orders.length = 1
        ∧ ∀ o ∈ a.orders, o.wavelengths.length = o.nelem ∧ o.fluxes.length = o.nelem
            ∧ o.fluxerrs.length = o.nelem ∧ o.dqs.length = o.nelem) :=
  ⟨(readspec_spec "obs_x1d.fits" demoFitsFile (by decide)).1, by decide, by decide⟩

/-- C5 counterexample: with all five stitched-spectrum keys present but the
plot-metrics mapping missing `optimal_xaxis_range`, `plotspec` raises a
plain `KeyError` (the access at line 268 is not guarded), not the
descriptive `SpecUtilsError` the claim asserts for both mappings. -/
theorem plotspec_metrics_missing_key_counterexample :
    plotspec_render_association
        ⟨some [PyVal.fin 1], some [PyVal.fin 0], some [PyVal.fin 0], some [PyVal.fin 0], some "demo"⟩
        ⟨none, none, none, none, none, none⟩ true false false 0 1
        (PyVal.nan, PyVal.nan) (PyVal.nan, PyVal.nan)
      = .error (.keyError "optimal_xaxis_range")
    ∧ (PyError.keyError "optimal_xaxis_range").isSpecUtilsError = false :=
  ⟨rfl, rfl⟩

/-- C5 (amended): a missing expected key in the stitched-spectrum mapping
raises a descriptive `SpecUtilsError` naming the missing key; a missing
expected key in the plot-metrics mapping instead raises a plain `KeyError`
(still naming the key, but not the descriptive processing error). -/
theorem plotspec_missing_key_spec (sd : StitchedDict) (md : MetricsDict)
    (is_bigplot debug full_ylabels : Bool) (ai na : ℕ) (pxr pyr : PyVal × PyVal) :
    (sd.wls = none →
      plotspec_render_association sd md is_bigplot debug full_ylabels ai na pxr pyr =
        .error (.specUtilsError "The provided stitched spectrum does not have the expected format, missing key 'wls'."))
    ∧ (sd.wls.isSome → sd.fls = none →
      plotspec_render_association sd md is_bigplot debug full_ylabels ai na pxr pyr =
        .error (.specUtilsError "The provided stitched spectrum does not have the expected format, missing key 'fls'."))
    ∧ (sd.wls.isSome → sd.fls.isSome → sd.flerrs = none →
      plotspec_render_association sd md is_bigplot debug full_ylabels ai na pxr pyr =
        .error (.specUtilsError "The provided stitched spectrum does not have the expected format, missing key 'flerrs'."))
    ∧ (sd.wls.isSome → sd.fls.isSome → sd.flerrs.isSome → sd.dqs = none →
      plotspec_render_association sd md is_bigplot debug full_ylabels ai na pxr pyr =
        .error (.specUtilsError "The provided stitched spectrum does not have the expected format, missing key 'dqs'."))
    ∧ (sd.wls.isSome → sd.fls.isSome → sd.flerrs.isSome → sd.dqs.isSome → sd.title = none →
      plotspec_render_association sd md is_bigplot debug full_ylabels ai na pxr pyr =
        .error (.specUtilsError "The provided stitched spectrum does not have the expected format, missing key 'title'."))
    ∧ (sd.wls.isSome → sd.fls.isSome → sd.flerrs.isSome → sd.dqs.isSome → sd.title.isSome →
        md.optimal_xaxis_range = none →
      plotspec_render_association sd md is_bigplot debug full_ylabels ai na pxr pyr =
        .error (.keyError "optimal_xaxis_range")) := by
  obtain ⟨w, f, fe, d, t⟩ := sd
  refine ⟨?_, ?_, ?_, ?_, ?_, ?_⟩
  · intro h1
    cases w with
    | none => rfl
    | some wv => simp at h1
  · intro h1 h2
    cases w with
    | none => simp at h1
    | some wv => cases f with
      | none => rfl
      | some fv => simp at h2
  · intro h1 h2 h3
    cases w with
    | none => simp at h1
    | some wv => cases f with
      | none => simp at h2
      | some fv => cases fe with
        | none => rfl
        | some fev => simp at h3
  · intro h1 h2 h3 h4
    cases w with
    | none => simp at h1
    | some wv => cases f with
      | none => simp at h2
      | some fv => cases fe with
        | none => simp at h3
        | some fev => cases d with
          | none => rfl
          | some dv => simp at h4
  · intro h1 h2 h3 h4 h5
    cases w with
    | none => simp at h1
    | some wv => cases f with
      | none => simp at h2
      | some fv => cases fe with
        | none => simp at h3
        | some fev => cases d with
          | none => simp at h4
          | some dv => cases t with
            | none => rfl
            | some tv => simp at h5
  · intro h1 h2 h3 h4 h5 h6
    cases w with
    | none => simp at h1
    | some wv => cases f with
      | none => simp at h2
      | some fv => cases fe with
        | none => simp at h3
        | some fev => cases d with
          | none => simp at h4
          | some dv => cases t with
            | none => simp at h5
            | some tv =>
              simp only [plotspec_render_association, getKeyStitched, getKeyMetrics, h6,
                except_bind_ok]
              rfl

/-- Witness for C5: a stitched mapping missing `fls` produces the
descriptive `SpecUtilsError`, and a complete stitched mapping with a
metrics mapping missing `optimal_xaxis_range` produces the plain
`KeyError`. -/
theorem plotspec_missing_key_spec_witness :
    plotspec_render_association
        ⟨some [PyVal.fin 1], none, some [PyVal.fin 0], some [PyVal.fin 0], some "demo"⟩
        ⟨none, none, none, none, none, none⟩ false false false 0 1
        (PyVal.nan, PyVal.nan) (PyVal.nan, PyVal.nan)
      = .error (.specUtilsError "The provided stitched spectrum does not have the expected format, missing key 'fls'.")
    ∧ plotspec_render_association
        ⟨some [PyVal.fin 1], some [PyVal.fin 0], some [PyVal.fin 0], some [PyVal.fin 0], some "demo"⟩
        ⟨none, some [PyVal.fin 0, PyVal.fin 1], none, none, none, none⟩ false true true 2 4
        (PyVal.fin 0, PyVal.fin 1) (PyVal.fin 0, PyVal.fin 1)
      = .error (.keyError "optimal_xaxis_range") :=
  ⟨(plotspec_missing_key_spec _ _ false false false 0 1 _ _).2.1 rfl rfl,
   (plotspec_missing_key_spec _ _ false true true 2 4 _ _).2.2.2.2.2 rfl rfl rfl rfl rfl rfl⟩

/-- C10: when the optimal x-axis range is non-finite, the rendered subplot
is identical for `debug = True` and `debug = False`: the degenerate branch
draws no debug overlay, no trimmed-edge shading and no avoid-region
shading, and its y-axis handling does not consult the debug flag. -/
theorem plotspec_degenerate_debug_independent (sd : StitchedDict) (md : MetricsDict)
    (is_bigplot full_ylabels : Bool) (ai na : ℕ) (pxr pyr : PyVal × PyVal)
    (r : List PyVal) (hr : md.optimal_xaxis_range = some r)
    (hnf : r.all PyVal.isfinite = false) :
    plotspec_render_association sd md is_bigplot true full_ylabels ai na pxr pyr =
      plotspec_render_association sd md is_bigplot false full_ylabels ai na pxr pyr := by
  obtain ⟨w, f, fe, d, t⟩ := sd
  cases w with
  | none => rfl
  | some wv => cases f with
    | none => rfl
    | some fv => cases fe with
      | none => rfl
      | some fev => cases d with
        | none => rfl
        | some dv => cases t with
          | none => rfl
          | some tv =>
            simp only [plotspec_render_association, getKeyStitched, getKeyMetrics, hr,
              except_bind_ok, hnf]
            rfl

/-- Witness for C10: a concrete degenerate association rendered with and
without the debug flag. -/
theorem plotspec_degenerate_debug_independent_witness :
    plotspec_render_association
        ⟨some [PyVal.fin 1], some [PyVal.fin 0], some [PyVal.fin 0], some [PyVal.fin 0], some "demo"⟩
        ⟨some [PyVal.nan, PyVal.nan], none, none, none, none, none⟩ true true false 0 1
        (PyVal.nan, PyVal.nan) (PyVal.nan, PyVal.nan)
      = plotspec_render_association
        ⟨some [PyVal.fin 1], some [PyVal.fin 0], some [PyVal.fin 0], some [PyVal.fin 0], some "demo"⟩
        ⟨some [PyVal.nan, PyVal.nan], none, none, none, none, none⟩ true false false 0 1
        (PyVal.nan, PyVal.nan) (PyVal.nan, PyVal.nan) :=
  plotspec_degenerate_debug_independent _ _ true false 0 1 _ _ [PyVal.nan, PyVal.nan] rfl rfl

set_option maxHeartbeats 1000000 in
/-- C2: for every association whose plot-metrics optimal x-axis range has a
non-finite bound, `plotspec` renders the degenerate panel instead of a flux
curve, in both big-plot and thumbnail modes: no curve is drawn, the x-axis
is set to the minimum and maximum (finite) wavelength of the stitched
series, the background is grey, y-axis tick labels are suppressed, and a
centered `fluxes are all zero` text annotation is drawn (mode-dependent
wording and size). -/
theorem plotspec_degenerate_panel_spec
    (wq : List ℚ) (hw : wq ≠ []) (fls flerrs dqs : List PyVal) (title : String)
    (md : MetricsDict) (r : List PyVal) (hr : md.optimal_xaxis_range = some r)
    (hnf : r.all PyVal.isfinite = false)
    (is_bigplot debug full_ylabels : Bool) (ai na : ℕ) (pxr pyr : PyVal × PyVal) :
    ∃ p : Panel,
      plotspec_render_association
          ⟨some (wq.map PyVal.fin), some fls, some flerrs, some dqs, some title⟩
          md is_bigplot debug full_ylabels ai na pxr pyr = .ok p
      ∧ p.curve = none
      ∧ (∃ qmin qmax : ℚ, p.xlim = some (.fin qmin, .fin qmax)
          ∧ qmin ∈ wq ∧ qmax ∈ wq ∧ ∀ x ∈ wq, qmin ≤ x ∧ x ≤ qmax)
      ∧ p.bgcolor = some "lightgrey"
      ∧ p.yticklabels = some ([] : List String)
      ∧ p.texts = [{ x := 1/2, y := 1/2,
                     text := if is_bigplot then "Fluxes are all 0." else "Fluxes are \n all 0.",
                     ha := "center", va := "center",
                     size := if is_bigplot then "x-large" else "small" }] := by
  obtain ⟨q, qs, rfl⟩ : ∃ q qs, wq = q :: qs := by
    cases wq with
    | nil => exact absurd rfl hw
    | cons a l => exact ⟨a, l, rfl⟩
  cases is_bigplot with
  | false =>
    simp only [plotspec_render_association, getKeyStitched, getKeyMetrics, hr, hnf,
      except_bind_ok, nanminE_map_fin, nanmaxE_map_fin]
    simp only [Bool.false_eq_true, if_false, and_false, ite_self, not_false_eq_true, if_true,
      ite_false, ite_true, except_bind_pure, List.nil_append]
    exact ⟨_, rfl, rfl,
      ⟨List.foldl min q qs, List.foldl max q qs, rfl, foldl_min_mem q qs, foldl_max_mem q qs,
        fun x hx => ⟨foldl_min_le q qs x hx, le_foldl_max q qs x hx⟩⟩, rfl, rfl, rfl⟩
  | true =>
    simp only [plotspec_render_association, getKeyStitched, getKeyMetrics, hr, hnf,
      except_bind_ok, nanminE_map_fin, nanmaxE_map_fin]
    simp only [Bool.false_eq_true, if_false, and_true, if_true, ite_true, ite_false,
      except_bind_pure, List.nil_append]
    by_cases hna : na > 1
    · simp only [hna, if_true, ite_true, except_bind_pure, List.nil_append]
      exact ⟨_, rfl, rfl,
        ⟨List.foldl min q qs, List.foldl max q qs, rfl, foldl_min_mem q qs, foldl_max_mem q qs,
          fun x hx => ⟨foldl_min_le q qs x hx, le_foldl_max q qs x hx⟩⟩, rfl, rfl, rfl⟩
    · simp only [hna, if_false, ite_false, except_bind_pure, List.nil_append]
      exact ⟨_, rfl, rfl,
        ⟨List.foldl min q qs, List.foldl max q qs, rfl, foldl_min_mem q qs, foldl_max_mem q qs,
          fun x hx => ⟨foldl_min_le q qs x hx, le_foldl_max q qs x hx⟩⟩, rfl, rfl, rfl⟩

/-- Witness for C2: a concrete two-point wavelength series whose metrics
report a `[nan, nan]` optimal range, rendered in big-plot mode. -/
theorem plotspec_degenerate_panel_spec_witness :
    ∃ p : Panel,
      plotspec_render_association
          ⟨some (([1100, 1200] : List ℚ).map PyVal.fin), some [PyVal.fin 0, PyVal.fin 0],
            some [PyVal.fin 0, PyVal.fin 0], some [PyVal.fin 0, PyVal.fin 0], some "demo"⟩
          ⟨some [PyVal.nan, PyVal.nan], none, none, none, none, none⟩ true false false 0 1
          (PyVal.nan, PyVal.nan) (PyVal.nan, PyVal.nan) = .ok p
      ∧ p.curve = none
      ∧ (∃ qmin qmax : ℚ, p.xlim = some (.fin qmin, .fin qmax)
          ∧ qmin ∈ ([1100, 1200] : List ℚ) ∧ qmax ∈ ([1100, 1200] : List ℚ)
          ∧ ∀ x ∈ ([1100, 1200] : List ℚ), qmin ≤ x ∧ x ≤ qmax)
      ∧ p.bgcolor = some "lightgrey"
      ∧ p.yticklabels = some ([] : List String)
      ∧ p.texts = [{ x := 1/2, y := 1/2,
                     text := if (true : Bool) then "Fluxes are all 0." else "Fluxes are \n all 0.",
                     ha := "center", va := "center",
                     size := if (true : Bool) then "x-large" else "small" }] :=
  plotspec_degenerate_panel_spec [1100, 1200] (by decide) [PyVal.fin 0, PyVal.fin 0]
    [PyVal.fin 0, PyVal.fin 0] [PyVal.fin 0, PyVal.fin 0] "demo"
    ⟨some [PyVal.nan, PyVal.nan], none, none, none, none, none⟩ [PyVal.nan, PyVal.nan]
    rfl rfl true false false 0 1 (PyVal.nan, PyVal.nan) (PyVal.nan, PyVal.nan)

/-- Auxiliary: `takeWhile` passes over a block whose elements all satisfy
the predicate. -/
theorem takeWhile_append_all (p : Char → Bool) (l₁ l₂ : List Char)
    (h : ∀ a ∈ l₁, p a = true) :
    (l₁ ++ l₂).takeWhile p = l₁ ++ l₂.takeWhile p := by
  induction l₁ with
  | nil => simp
  | cons a l ih =>
    have ha := h a (List.mem_cons_self a l)
    simp [List.takeWhile_cons, ha, ih (fun x hx => h x (List.mem_cons_of_mem _ hx))]

/-- Auxiliary: `takeWhile` keeps a list whose elements all satisfy the
predicate. -/
theorem takeWhile_all_eq (p : Char → Bool) (l : List Char) (h : ∀ a ∈ l, p a = true) :
    l.takeWhile p = l := by
  have := takeWhile_append_all p l [] h
  simpa using this

/-- Behaviour of the embedded `os.path.split` on a path of the form
`dir ++ "/" ++ tail` where `dir` is non-empty without a trailing slash and
`tail` contains no slash. -/
theorem ospath_split_dir (dir tail : List Char) (hdir : dir ≠ [])
    (hlast : dir.getLast? ≠ some '/') (htail : '/' ∉ tail) :
    ospath_split (dir ++ '/' :: tail) = (dir, tail) := by
  obtain ⟨L, c, rfl⟩ : ∃ L c, dir = L ++ [c] := by
    rcases List.eq_nil_or_concat' dir with h | ⟨L, c, h⟩
    · exact absurd h hdir
    · exact ⟨L, c, h⟩
  have hc : c ≠ '/' := by
    intro hceq
    exact hlast (by rw [List.getLast?_concat, hceq])
  have hrev : (L ++ [c] ++ '/' :: tail).reverse = tail.reverse ++ '/' :: (L ++ [c]).reverse := by
    simp
  have htw : ((L ++ [c] ++ '/' :: tail).reverse.takeWhile (fun x => x ≠ '/')) = tail.reverse := by
    rw [hrev, takeWhile_append_all]
    · simp
    · intro a ha
      simp only [List.mem_reverse] at ha
      simp only [ne_eq, decide_eq_true_eq]
      exact fun h => htail (h ▸ ha)
  have hlen : (L ++ [c] ++ '/' :: tail).length - tail.length = (L ++ [c]).length + 1 := by
    simp [List.length_append]
    omega
  have hhead : (L ++ [c] ++ '/' :: tail).take ((L ++ [c] ++ '/' :: tail).length - tail.length) =
      (L ++ [c]) ++ ['/'] := by
    rw [hlen, List.take_append_eq_append_take]
    have h1 : (L ++ [c]).take ((L ++ [c]).length + 1) = L ++ [c] :=
      List.take_of_length_le (by omega)
    have h2 : ('/' :: tail).take ((L ++ [c]).length + 1 - (L ++ [c]).length) = ['/'] := by
      have h3 : (L ++ [c]).length + 1 - (L ++ [c]).length = 1 := by omega
      rw [h3]
      rfl
    rw [h1, h2]
  have hstrip : rstrip_slashes ((L ++ [c]) ++ ['/']) = L ++ [c] := by
    unfold rstrip_slashes
    have h1 : ((L ++ [c]) ++ ['/']).reverse = '/' :: (c :: L.reverse) := by simp
    rw [h1]
    rw [List.dropWhile_cons_of_pos (by simp)]
    rw [List.dropWhile_cons_of_neg (by simp [hc])]
    simp
  have hall : ((L ++ [c]) ++ ['/']).all (fun x => decide (x = '/')) = false := by
    rcases Bool.eq_false_or_eq_true (((L ++ [c]) ++ ['/']).all (fun x => decide (x = '/'))) with h | h
    · exfalso
      have := List.all_eq_true.mp h c (by simp)
      simp at this
      exact hc this
    · exact h
  simp only [ospath_split, htw, List.reverse_reverse, hhead]
  rw [if_pos]
  · rw [hstrip]
  · constructor
    · simp
    · simp only [hall]
      exact Bool.false_ne_true

/-- Behaviour of the embedded `os.path.splitext` on a slash-free name of the
form `stem ++ "." ++ ext` where `ext` is dot-free and `stem` has a non-dot
character. -/
theorem ospath_splitext_ext (stem ext : List Char)
    (hstem_slash : '/' ∉ stem) (hstem_dot : ∃ a ∈ stem, a ≠ '.')
    (hext_dot : '.' ∉ ext) (hext_slash : '/' ∉ ext) :
    ospath_splitext (stem ++ '.' :: ext) = (stem, '.' :: ext) := by
  have hrev : (stem ++ '.' :: ext).reverse = ext.reverse ++ '.' :: stem.reverse := by simp
  have hsep : ((stem ++ '.' :: ext).reverse.takeWhile (fun x => x ≠ '/')).length =
      (stem ++ '.' :: ext).length := by
    rw [takeWhile_all_eq]
    · simp only [List.length_reverse]
    · intro a ha
      simp only [List.mem_reverse, List.mem_append, List.mem_cons] at ha
      simp only [ne_eq, decide_eq_true_eq]
      rintro rfl
      rcases ha with h | h | h
      · exact hstem_slash h
      · exact absurd h (by decide)
      · exact hext_slash h
  have hdot : ((stem ++ '.' :: ext).reverse.takeWhile (fun x => x ≠ '.')).length = ext.length := by
    rw [hrev, takeWhile_append_all]
    · have h0 : List.takeWhile (fun x => decide (x ≠ '.')) ('.' :: stem.reverse) = [] := by simp
      rw [h0]
      simp
    · intro a ha
      simp only [List.mem_reverse] at ha
      simp only [ne_eq, decide_eq_true_eq]
      rintro rfl
      exact hext_dot ha
  have hplen : (stem ++ '.' :: ext).length = stem.length + 1 + ext.length := by
    simp
    omega
  have hsep0 : (stem ++ '.' :: ext).length -
      ((stem ++ '.' :: ext).reverse.takeWhile (fun x => x ≠ '/')).length = 0 := by
    rw [hsep]
    omega
  have hdot1 : (stem ++ '.' :: ext).length -
      ((stem ++ '.' :: ext).reverse.takeWhile (fun x => x ≠ '.')).length = stem.length + 1 := by
    rw [hdot, hplen]
    omega
  have htake : (stem ++ '.' :: ext).take stem.length = stem := List.take_left stem _
  have hdrop : (stem ++ '.' :: ext).drop stem.length = '.' :: ext := List.drop_left stem _
  have hany : ((stem ++ '.' :: ext).take stem.length).any (fun x => decide (x ≠ '.')) = true := by
    rw [htake]
    obtain ⟨a, ha, hne⟩ := hstem_dot
    exact List.any_eq_true.mpr ⟨a, ha, by simpa using hne⟩
  simp only [ospath_splitext, hsep0, hdot1, Nat.add_sub_cancel, Nat.sub_zero, List.drop_zero]
  rw [if_pos]
  · rw [htake, hdrop]
  · exact ⟨by omega, by simpa using hany⟩

/-- C7: in file-output mode, for every output path of the shape
`dir/stem.ext` and every pixel size, `plotspec` derives the final filename
by inserting an underscore and the pixel size zero-padded to four digits
before the file extension, writing into the directory of the requested
path. -/
theorem plotspec_output_filename_spec (dir stem ext : List Char) (output_size : ℕ)
    (hdir : dir ≠ []) (hlast : dir.getLast? ≠ some '/')
    (hstem_slash : '/' ∉ stem) (hstem_dot : ∃ a ∈ stem, a ≠ '.')
    (hext_dot : '.' ∉ ext) (hext_slash : '/' ∉ ext) :
    plotspec_revised_output_file (dir ++ '/' :: (stem ++ '.' :: ext)) output_size =
      dir ++ '/' :: (stem ++ '_' :: (format04d output_size ++ '.' :: ext)) := by
  have htail : '/' ∉ stem ++ '.' :: ext := by
    simp only [List.mem_append, List.mem_cons]
    rintro (h | h | h)
    · exact hstem_slash h
    · exact absurd h (by decide)
    · exact hext_slash h
  simp only [plotspec_revised_output_file]
  rw [ospath_split_dir dir _ hdir hlast htail]
  rw [ospath_splitext_ext stem ext hstem_slash hstem_dot hext_dot hext_slash]

/-- Witness for C7: the path `/previews/foo.png` with pixel size 256 yields
exactly `/previews/foo_0256.png`. -/
theorem plotspec_output_filename_spec_witness :
    plotspec_revised_output_file_str "/previews/foo.png" 256 = "/previews/foo_0256.png" := by
  have h := plotspec_output_filename_spec "/previews".data "foo".data "png".data 256
    (by decide) (by decide) (by decide) (by decide) (by decide) (by decide)
  have e : "/previews/foo.png".data =
      "/previews".data ++ '/' :: ("foo".data ++ '.' :: "png".data) := by decide
  show (⟨plotspec_revised_output_file "/previews/foo.png".data 256⟩ : String) =
    "/previews/foo_0256.png"
  rw [e, h]
  decide

end SpecPlots
